import Mathlib

/-!
Verification of the nelius-launcher download orchestration engine
(src/utility/download_mc.py) and the classpath construction of the external
launcher (src/prototyping/nelius_launch.py), as a shallow embedding.

Modelling conventions:
- Machine state touched by the program is made explicit: the filesystem is an
  association list from paths to file contents, and the network is an oracle
  mapping a URL to the result of a streaming GET against it.
- Path joining (os.path.join) and relativization (os.path.relpath) are modelled
  as string concatenation with a slash separator, sound for the relative
  artifact paths the program builds (no dot segments, posix separators).
- platform.system() and platform.uname().system return the same value in
  Python; both are modelled by a single host string parameter.
- The worker pool is sequentialized: every submitted fetch task has its own
  destination path disjoint from all others and from the synchronously fetched
  index file, and nothing the coordinating thread does after submission reads
  a task result, so executing the submitted tasks after the coordinator body
  (i.e. at the drain point) is observationally faithful.
-/

/-- Outcome of a single-file fetch (download_file): the file was already
present (the function returns immediately), the body was written, or an
exception was raised inside the call. -/
inductive FetchOutcome where
  | skipped
  | downloaded
  | failed
deriving DecidableEq, Repr

/-- Abstract file content. `chunks` is an opaque byte stream (list of chunk
strings, as produced by response.iter_content); `index` is a well-formed
auxiliary asset index document, carried parsed: json.loads of the file
succeeds and its "objects" mapping is the given list of (logical name, hash)
pairs, in iteration order. Any other body is a `chunks` value, on which the
index-parsing step of the pipeline fails. -/
inductive Doc where
  | chunks (cs : List String)
  | index (objects : List (String × String))
deriving DecidableEq, Repr

/-- Result of session.get(url, stream=True) followed by streaming the body.
`connErr` is a connection failure before any response arrives (requests
raises, no file is touched). `resp status received midErr` is a response
with the given status code; `received` is the body content that arrives;
when `midErr` is true the connection drops while iterating the body
(requests raises out of iter_content after `received` was already written),
the process itself keeps running. -/
inductive NetResult where
  | connErr
  | resp (status : Nat) (received : Doc) (midErr : Bool)
deriving DecidableEq, Repr

/-- The local filesystem: association list from absolute path to content.
Lookup finds the first binding, and writing prepends, so a later write
shadows an earlier one. -/
abbrev FS := List (String × Doc)

def MANIFEST_URL : String :=
  "https://piston-meta.mojang.com/mc/game/version_manifest_v2.json"

def RESOURCES_BASE_URL : String := "https://resources.download.minecraft.net"

/-- download_mc.py, download_file (lines 137-153). Returns the outcome, the
filesystem after the call, and whether the network was used at all.

Faithful control flow: if dest_path exists, return immediately (no network,
no filesystem change). Otherwise session.get; a connection error raises with
no file created. r.raise_for_status() raises exactly for status codes in
[400, 600) (requests semantics), still before the destination is opened, so
no file is created. Only then is the file opened and the body streamed into
it chunk by chunk; a mid-stream error leaves the chunks received so far on
disk (the open(...) context manager closes the file, the exception
propagates). Progress printing and timing are ignored. os.makedirs of the
parent is not modelled (directories are implicit in the path map). -/
def download_file (net : String → NetResult) (fs : FS) (url dest : String) :
    FetchOutcome × FS × Bool :=
  match List.lookup dest fs with
  | some _ => (FetchOutcome.skipped, fs, false)
  | none =>
    match net url with
    | NetResult.connErr => (FetchOutcome.failed, fs, true)
    | NetResult.resp status received midErr =>
      if 400 ≤ status ∧ status < 600 then (FetchOutcome.failed, fs, true)
      else if midErr then (FetchOutcome.failed, (dest, received) :: fs, true)
      else (FetchOutcome.downloaded, (dest, received) :: fs, true)

/-! ## Manifest and version detail parsing (get_manifest / get_version_data) -/

/-- One entry of the manifest "versions" array (download_mc.py lines 42-46). -/
structure ManifestVersion where
  id : String
  type : String
  url : String
deriving DecidableEq, Repr

/-- One entry of a raw library "rules" array, as consumed by the extraction
loop (lines 108-111). The loop only looks at the optional "os" object of a
rule and at the optional "name" inside it, so a rule is modelled as
os : Option (Option String): `none` = no "os" key on the rule, `some none` =
an "os" object without a "name" key (e.g. one carrying only "arch" or
"version"), `some (some n)` = an "os" object with name n. -/
structure RawRule where
  os : Option (Option String)
deriving DecidableEq, Repr

/-- The "downloads.artifact" object of a raw library entry; "path" and "url"
are accessed unconditionally once the artifact is present (lines 121-122). -/
structure RawArtifact where
  path : String
  url : String
deriving DecidableEq, Repr

/-- One entry of the version detail "libraries" array. "name" is accessed
unconditionally (line 119); "rules" defaults to [] (line 108); "downloads"
defaults to {} and "artifact" may be absent (lines 113-114). -/
structure RawLibrary where
  name : String
  rules : List RawRule
  artifact : Option RawArtifact
deriving DecidableEq, Repr

/-- The "assetIndex" object of the version detail document. -/
structure RawAssetIndex where
  id : Option String
  url : Option String
deriving DecidableEq, Repr

/-- The "downloads" object of the version detail document; each field stands
for the url of the corresponding nested {url} object. -/
structure RawDownloads where
  client : Option String
  server : Option String
deriving DecidableEq, Repr

/-- The version detail document, with every field whose absence the code
would turn into a KeyError kept optional. -/
structure RawVersionDetails where
  id : Option String
  assetIndex : Option RawAssetIndex
  downloads : Option RawDownloads
  mainClass : Option String
  libraries : List RawLibrary
deriving DecidableEq, Repr

/-- A parsed library (download_mc.py lines 49-55). -/
structure Library where
  library_name : String
  operating_system : String
  download_path : String
  download_url : String
deriving DecidableEq, Repr

/-- The parsed version detail data (download_mc.py lines 58-66). -/
structure VersionData where
  id : String
  asset_index_url : String
  asset_index_id : String
  client_jar_url : String
  server_jar_url : String
  libraries : List Library
  main_class : String
deriving DecidableEq, Repr

/-- The fatal errors get_version_data can raise: the for-else ValueError when
no manifest id matches (line 100), a network or JSON failure on a fetch, and
a KeyError on a missing required field of the detail document. -/
inductive LauncherError where
  | versionNotFound
  | networkError
  | missingField (key : String)
deriving DecidableEq, Repr

/-- The rule scan of the extraction loop (lines 106-111): system starts as
"unspecified"; every rule carrying an "os" key overwrites it with that os
object's name, defaulting to "unspecified" when the os object has no name;
rules without an "os" key are ignored. -/
def ruleSystem (rules : List RawRule) : String :=
  rules.foldl
    (fun system rule =>
      match rule.os with
      | none => system
      | some osName => osName.getD "unspecified")
    "unspecified"

/-- Lines 113-124: a raw library yields a parsed Library exactly when its
downloads.artifact object is present; otherwise it is dropped. -/
def parseLibrary (raw : RawLibrary) : Option Library :=
  match raw.artifact with
  | none => none
  | some artifact =>
    some { library_name := raw.name
           operating_system := ruleSystem raw.rules
           download_path := artifact.path
           download_url := artifact.url }

/-- The whole extraction loop over the "libraries" array, appending parsed
entries in declaration order. -/
def parseLibraries (raws : List RawLibrary) : List Library :=
  raws.filterMap parseLibrary

/-- download_mc.py, get_version_data (lines 91-134). The manifest is the
already-fetched versions list; `details` is the network oracle for the
version detail fetch of line 102 (none = request or JSON failure). The loop
with break/else is the first exact, case-sensitive id match; the field
accesses happen in the evaluation order of the VersionData(...) call
(id, assetIndex.url, assetIndex.id, downloads.client.url,
downloads.server.url, mainClass), after the library loop. -/
def get_version_data (manifest : List ManifestVersion)
    (details : String → Option RawVersionDetails) (target : String) :
    Except LauncherError VersionData :=
  match manifest.find? (fun v => v.id == target) with
  | none => Except.error LauncherError.versionNotFound
  | some mv =>
    match details mv.url with
    | none => Except.error LauncherError.networkError
    | some raw =>
      let libraries := parseLibraries raw.libraries
      match raw.id with
      | none => Except.error (LauncherError.missingField "id")
      | some vid =>
        match raw.assetIndex with
        | none => Except.error (LauncherError.missingField "assetIndex")
        | some ai =>
          match ai.url with
          | none => Except.error (LauncherError.missingField "assetIndex.url")
          | some aiUrl =>
            match ai.id with
            | none => Except.error (LauncherError.missingField "assetIndex.id")
            | some aiId =>
              match raw.downloads with
              | none => Except.error (LauncherError.missingField "downloads")
              | some dls =>
                match dls.client with
                | none => Except.error (LauncherError.missingField "downloads.client.url")
                | some clientUrl =>
                  match dls.server with
                  | none => Except.error (LauncherError.missingField "downloads.server.url")
                  | some serverUrl =>
                    match raw.mainClass with
                    | none => Except.error (LauncherError.missingField "mainClass")
                    | some mainClass =>
                      Except.ok
                        { id := vid
                          asset_index_url := aiUrl
                          asset_index_id := aiId
                          client_jar_url := clientUrl
                          server_jar_url := serverUrl
                          libraries := libraries
                          main_class := mainClass }

/-! ## The download pipeline (download_minecraft_structure and __main__) -/

/-- A unit of work handed to the executor: executor.submit(download_file, url, dest). -/
structure FetchTask where
  url : String
  dest : String
deriving DecidableEq, Repr

/-- The descriptor json.dumped to <output>/nelius.meta (lines 203-213). -/
structure RunDescriptor where
  version : String
  asset_index_id : String
  classpath_relative : List String
  main_class : String
  assets_dir : String
deriving DecidableEq, Repr

/-- The platform filter of the library loop (lines 178-183): three continue
checks, one per recognized OS name. platform.system() and
platform.uname().system are the same value, the host parameter. -/
def includeLib (host : String) (l : Library) : Bool :=
  if l.operating_system == "windows" && !(host == "Windows") then false
  else if l.operating_system == "linux" && !(host == "Linux") then false
  else if l.operating_system == "osx" && !(host == "Darwin") then false
  else true

/-- The classpath_relative entries accumulated by the library loop (line 187):
os.path.relpath(join(output, "libraries", download_path), output), i.e.
"libraries/" ++ download_path, one per library passing the platform filter,
in declaration order. -/
def classpathOf (host : String) (libs : List Library) : List String :=
  (libs.filter (includeLib host)).map (fun l => "libraries/" ++ l.download_path)

/-- The fetch tasks submitted by the library loop (lines 185-186), one per
library passing the platform filter, in declaration order. -/
def libraryTasks (out host : String) (libs : List Library) : List FetchTask :=
  (libs.filter (includeLib host)).map
    (fun l => { url := l.download_url, dest := out ++ "/libraries/" ++ l.download_path })

/-- The asset index destination (lines 189-191):
<output>/assets/indexes/<asset_index_id>.json. -/
def indexPathOf (out : String) (vd : VersionData) : String :=
  out ++ "/assets/indexes/" ++ vd.asset_index_id ++ ".json"

/-- json.loads of the index file followed by ["objects"] (lines 194-195):
succeeds exactly on a well-formed index document. -/
def parseIndexDoc : Doc → Option (List (String × String))
  | Doc.index objects => some objects
  | Doc.chunks _ => none

/-- The aux-object loop (lines 197-201): one task per value of the "objects"
mapping (logical names, the keys, are discarded by .values()), fetched from
RESOURCES_BASE_URL/<h[0:2]>/<h> into <output>/assets/objects/<h[0:2]>/<h>. -/
def auxObjectTasks (out : String) (objects : List (String × String)) : List FetchTask :=
  objects.map
    (fun o =>
      { url := RESOURCES_BASE_URL ++ "/" ++ o.2.take 2 ++ "/" ++ o.2
        dest := out ++ "/assets/objects/" ++ o.2.take 2 ++ "/" ++ o.2 })

/-- The object written to nelius.meta (lines 203-213): note "version" is the
command-line version string, not version_data.id, and assets_dir is
relpath(<output>/assets, <output>) = "assets". -/
def descriptorOf (mcVersion host : String) (vd : VersionData) : RunDescriptor :=
  { version := mcVersion
    asset_index_id := vd.asset_index_id
    classpath_relative := classpathOf host vd.libraries
    main_class := vd.main_class
    assets_dir := "assets" }

/-- The synchronous index step (lines 192-195): download_file on the asset
index url, then read the index file back and parse it. Returns the parsed
objects list (none when the download raised or the file does not parse),
the filesystem after the step, and whether the network was used. -/
def indexStep (net : String → NetResult) (out : String) (vd : VersionData) (fs : FS) :
    Option (List (String × String)) × FS × Bool :=
  let r := download_file net fs vd.asset_index_url (indexPathOf out vd)
  match r.1 with
  | FetchOutcome.failed => (none, r.2.1, r.2.2)
  | _ => ((List.lookup (indexPathOf out vd) r.2.1).bind parseIndexDoc, r.2.1, r.2.2)

/-- Sequential execution of a list of submitted fetch tasks (the drain of the
worker pool): the filesystem after all tasks ran, their outcomes in
submission order, and the urls for which the network was actually used. -/
def runTasks (net : String → NetResult) : FS → List FetchTask → FS × List FetchOutcome × List String
  | fs, [] => (fs, [], [])
  | fs, t :: ts =>
    let r := download_file net fs t.url t.dest
    let rest := runTasks net r.2.1 ts
    (rest.1, r.1 :: rest.2.1, (if r.2.2 then [t.url] else []) ++ rest.2.2)

/-- The observable result of one run of download_minecraft_structure followed
by the drain of the executor: final filesystem, urls the network was used
for, outcomes of the submitted tasks in submission order, the descriptor
written to nelius.meta (none when the run aborted before line 203), and
whether the run raised out of the coordinating thread (index download or
parse failure). -/
structure RunResult where
  fs : FS
  requested : List String
  outcomes : List FetchOutcome
  descriptor : Option RunDescriptor
  fatal : Bool
deriving DecidableEq, Repr

/-- download_mc.py, download_minecraft_structure (lines 156-213) plus the
executor drain of the with-block in __main__ (lines 219-220). The coordinating
thread submits the client.jar task and the filtered library tasks, runs the
index step synchronously, submits one task per aux object, and writes
nelius.meta - without consulting any submitted future, so task failures are
invisible to it. If the index step raises (download failure or json parse
failure), the exception propagates before line 203: no descriptor is written,
but the already submitted tasks are still drained by the with-block exit.
Directory creation (lines 159-168) is implicit in the path map. Tasks are
executed at the drain point, sound because their destinations are disjoint
from each other and from everything the coordinator reads. -/
def download_minecraft_structure (net : String → NetResult)
    (host out mcVersion : String) (vd : VersionData) (fs₀ : FS) : RunResult :=
  let tasks₁ : List FetchTask :=
    { url := vd.client_jar_url, dest := out ++ "/client.jar" } :: libraryTasks out host vd.libraries
  let step := indexStep net out vd fs₀
  let idxReq : List String := if step.2.2 then [vd.asset_index_url] else []
  match step.1 with
  | none =>
    let r := runTasks net step.2.1 tasks₁
    { fs := r.1, requested := idxReq ++ r.2.2, outcomes := r.2.1
      descriptor := none, fatal := true }
  | some objects =>
    let r := runTasks net step.2.1 (tasks₁ ++ auxObjectTasks out objects)
    { fs := r.1, requested := idxReq ++ r.2.2, outcomes := r.2.1
      descriptor := some (descriptorOf mcVersion host vd), fatal := false }

/-- The observable result of the whole program (__main__, lines 216-222). -/
structure MainResult where
  error : Option LauncherError
  fs : FS
  requested : List String
  descriptor : Option RunDescriptor
deriving DecidableEq, Repr

/-- __main__ (lines 216-222): get_version_data first; any of its errors
aborts before download_minecraft_structure is entered, so the filesystem is
untouched and no download request was made. -/
def mainRun (net : String → NetResult) (host : String)
    (manifest : List ManifestVersion) (details : String → Option RawVersionDetails)
    (out target : String) (fs₀ : FS) : MainResult :=
  match get_version_data manifest details target with
  | Except.error e => { error := some e, fs := fs₀, requested := [], descriptor := none }
  | Except.ok vd =>
    let r := download_minecraft_structure net host out target vd fs₀
    { error := if r.fatal then some LauncherError.networkError else none
      fs := r.fs, requested := r.requested, descriptor := r.descriptor }

/-! ## The external launcher (nelius_launch.py, launch_minecraft) -/

/-- nelius_launch.py lines 23-28: the classpath handed to the java command is
one absolute path per classpath_relative entry, in order, with
<gameDir>/client.jar appended last. os.path.abspath(os.path.join(g, p)) is
modelled as g ++ "/" ++ p. -/
def launch_classpath (gameDir : String) (meta : RunDescriptor) : List String :=
  meta.classpath_relative.map (fun p => gameDir ++ "/" ++ p) ++ [gameDir ++ "/client.jar"]

/-! ## Definitions following the wording of the specification, for comparison
with the embedded code. -/

/-- The platform constraint as claim C2 words it: the OS name of the last
rule in the list that specifies an OS name, and the unrestricted default
when no rule specifies one. A rule specifies an OS name exactly when its os
object is present and carries a name. -/
def lastNamedOsConstraint (rules : List RawRule) : String :=
  match (rules.filterMap (fun r => r.os.bind id)).getLast? with
  | none => "unspecified"
  | some n => n

/-- The platform constraint as the code actually derives it, worded
declaratively: the last rule carrying an os object wins, contributing that
os object's name or the unrestricted default when the os object is
nameless; the default also applies when no rule carries an os object. -/
def lastOsFieldConstraint (rules : List RawRule) : String :=
  match (rules.filterMap (fun r => r.os)).getLast? with
  | none => "unspecified"
  | some osName => osName.getD "unspecified"

/-- Spec wording (sections 3 and 8): a constraint is unrestricted ("any")
when it is none of the three recognized OS names. The code spells the
default "unspecified", and any unrecognized string behaves the same way. -/
def isAnyConstraint (os : String) : Bool :=
  !(os == "windows" || os == "linux" || os == "osx")

/-- Spec wording: a recognized constraint matches the executing host. -/
def constraintMatchesHost (host os : String) : Bool :=
  (os == "windows" && host == "Windows") ||
  (os == "linux" && host == "Linux") ||
  (os == "osx" && host == "Darwin")

/-! ## Shared helper lemmas -/

theorem cons_getLast? (a : α) (l : List α) :
    (a :: l).getLast? = some (l.getLast?.getD a) := by
  induction l generalizing a with
  | nil => rfl
  | cons b t ih =>
    rw [List.getLast?_cons_cons, ih b]
    cases h : (b :: t).getLast? with
    | none => simp [ih b] at h
    | some x => simp [h]

theorem ruleSystem_foldl_eq (rules : List RawRule) (acc : String) :
    rules.foldl
        (fun system rule =>
          match rule.os with
          | none => system
          | some osName => osName.getD "unspecified")
        acc =
      match (rules.filterMap (fun r => r.os)).getLast? with
      | none => acc
      | some osName => osName.getD "unspecified" := by
  induction rules generalizing acc with
  | nil => rfl
  | cons r rs ih =>
    cases h : r.os with
    | none => simp [List.foldl_cons, List.filterMap_cons, h, ih]
    | some osName =>
      simp only [List.foldl_cons, List.filterMap_cons, h, ih, cons_getLast?]
      cases hl : (rs.filterMap (fun r => r.os)).getLast? <;> simp [hl]

/-- The code filter agrees pointwise with the spec predicate
"unrestricted or matches the executing host". -/
theorem includeLib_eq_spec (host : String) (l : Library) :
    includeLib host l =
      (isAnyConstraint l.operating_system ||
        constraintMatchesHost host l.operating_system) := by
  unfold includeLib isAnyConstraint constraintMatchesHost
  cases hw : l.operating_system == "windows" with
  | true =>
    have hw' : l.operating_system = "windows" := by simpa using hw
    cases hh : host == "Windows" <;> simp [hw', hh]
  | false =>
    cases hl : l.operating_system == "linux" with
    | true =>
      have hl' : l.operating_system = "linux" := by simpa using hl
      cases hh : host == "Linux" <;> simp [hl', hh]
    | false =>
      cases ho : l.operating_system == "osx" with
      | true =>
        have ho' : l.operating_system = "osx" := by simpa using ho
        cases hh : host == "Darwin" <;> simp [ho', hh]
      | false => simp [hw, hl, ho]

/-- A fetch task whose destination already exists is skipped: no outcome
other than skipped, no filesystem change, no network use. Lifted to a whole
task list. -/
theorem runTasks_all_present (net : String → NetResult) (tasks : List FetchTask) (fs : FS)
    (h : ∀ t ∈ tasks, (List.lookup t.dest fs).isSome = true) :
    runTasks net fs tasks = (fs, tasks.map (fun _ => FetchOutcome.skipped), []) := by
  induction tasks with
  | nil => rfl
  | cons t ts ih =>
    have ht : (List.lookup t.dest fs).isSome = true := h t (by simp)
    obtain ⟨d, hd⟩ := Option.isSome_iff_exists.mp ht
    have hdl : download_file net fs t.url t.dest = (FetchOutcome.skipped, fs, false) := by
      unfold download_file
      rw [hd]
    simp only [runTasks, hdl]
    rw [ih (fun t' ht' => h t' (by simp [ht']))]
    simp

/-- The descriptor written by a run is governed by the index step alone: it
is present exactly when the synchronous index download and parse succeed,
and its value never depends on any submitted task. -/
theorem descriptor_spec (net : String → NetResult) (host out mcVersion : String)
    (vd : VersionData) (fs₀ : FS) :
    (download_minecraft_structure net host out mcVersion vd fs₀).descriptor =
      (indexStep net out vd fs₀).1.map (fun _ => descriptorOf mcVersion host vd) := by
  unfold download_minecraft_structure
  cases h : (indexStep net out vd fs₀).1 <;> simp [h]

/-! ## Claims -/

/-- C1 counterexample: a run in which the client.jar task succeeds, the
synchronous index step succeeds, and the single aux-object task fails with a
connection error still writes the run descriptor, refuting the claim that a
run with at least one failed fetch task never produces the descriptor file. -/
theorem descriptor_written_despite_failed_task :
    let vd : VersionData :=
      { id := "1.20", asset_index_url := "https://ai", asset_index_id := "abc"
        client_jar_url := "https://client", server_jar_url := "https://server"
        libraries := [], main_class := "net.minecraft.client.main.Main" }
    let net : String → NetResult := fun url =>
      if url == "https://ai" then NetResult.resp 200 (Doc.index [("sound", "abcd")]) false
      else if url == "https://client" then NetResult.resp 200 (Doc.chunks ["ok"]) false
      else NetResult.connErr
    ((download_minecraft_structure net "Linux" "root" "1.20" vd []).descriptor).isSome = true ∧
    (download_minecraft_structure net "Linux" "root" "1.20" vd []).outcomes.contains
      FetchOutcome.failed = true := by
  decide

/-- C1, amended: the descriptor is written at most once per run, and exactly
when the synchronous index fetch and parse succeed; the outcomes of the
submitted fetch tasks (primary artifact, dependency artifacts, auxiliary
objects) are never consulted, so a failed task does not prevent the
descriptor, and the run is fatal exactly when no descriptor is written. -/
theorem descriptor_gated_only_on_index_step :
    ∀ (net : String → NetResult) (host out v : String) (vd : VersionData) (fs₀ : FS),
      (download_minecraft_structure net host out v vd fs₀).descriptor =
        (indexStep net out vd fs₀).1.map (fun _ => descriptorOf v host vd) ∧
      (download_minecraft_structure net host out v vd fs₀).descriptor.isSome =
        !(download_minecraft_structure net host out v vd fs₀).fatal := by
  intro net host out v vd fs₀
  refine ⟨descriptor_spec net host out v vd fs₀, ?_⟩
  unfold download_minecraft_structure
  cases h : (indexStep net out vd fs₀).1 <;> simp [h]

/-- C2 counterexample: for the rule list [os linux, os without a name] the
code derives the constraint "unspecified", while the claim (last rule that
specifies an OS name wins) demands "linux". -/
theorem ruleSystem_forgets_name_on_nameless_os_rule :
    ruleSystem [⟨some (some "linux")⟩, ⟨some none⟩] = "unspecified" ∧
    lastNamedOsConstraint [⟨some (some "linux")⟩, ⟨some none⟩] = "linux" ∧
    ruleSystem [⟨some (some "linux")⟩, ⟨some none⟩] ≠
      lastNamedOsConstraint [⟨some (some "linux")⟩, ⟨some none⟩] := by
  decide

/-- C2, amended: the derived platform constraint equals the name given by the
last rule in the list that carries an os object, taking the unrestricted
default "unspecified" when that os object has no name, and the unrestricted
default when no rule carries an os object; in particular the rule list
[os linux, os windows] yields "windows". -/
theorem ruleSystem_eq_last_os_field :
    (∀ rules, ruleSystem rules = lastOsFieldConstraint rules) ∧
    ruleSystem [⟨some (some "linux")⟩, ⟨some (some "windows")⟩] = "windows" := by
  refine ⟨fun rules => ?_, by decide⟩
  unfold ruleSystem lastOsFieldConstraint
  exact ruleSystem_foldl_eq rules "unspecified"

/-- C3: the classpath recorded in the run descriptor consists of exactly the
dependency artifacts whose constraint is unrestricted or matches the
executing host, kept in original declaration order, and the classpath the
launcher hands to the java command places the primary artifact (client.jar)
last. -/
theorem classpath_filtered_ordered_primary_last :
    ∀ (net : String → NetResult) (host out v gameDir : String) (vd : VersionData)
      (fs₀ : FS) (d : RunDescriptor),
      (download_minecraft_structure net host out v vd fs₀).descriptor = some d →
      d.classpath_relative =
        (vd.libraries.filter (fun l =>
            isAnyConstraint l.operating_system ||
              constraintMatchesHost host l.operating_system)).map
          (fun l => "libraries/" ++ l.download_path) ∧
      (launch_classpath gameDir d).getLast? = some (gameDir ++ "/client.jar") := by
  intro net host out v gameDir vd fs₀ d hd
  rw [descriptor_spec] at hd
  have hdval : d = descriptorOf v host vd := by
    cases h : (indexStep net out vd fs₀).1 with
    | none => rw [h] at hd; exact absurd hd (by simp)
    | some objects => rw [h] at hd; simpa using hd.symm
  subst hdval
  constructor
  · show classpathOf host vd.libraries = _
    unfold classpathOf
    rw [List.filter_congr (fun l _ => includeLib_eq_spec host l)]
  · exact List.getLast?_concat _

/-- A sample version with one linux-only, one windows-only and one
unconstrained dependency. -/
def sampleMixedVd : VersionData :=
  { id := "1.20", asset_index_url := "https://ai", asset_index_id := "abc"
    client_jar_url := "https://client", server_jar_url := "https://server"
    libraries :=
      [{ library_name := "libA", operating_system := "linux"
         download_path := "a.jar", download_url := "https://a" },
       { library_name := "libB", operating_system := "windows"
         download_path := "b.jar", download_url := "https://b" },
       { library_name := "libC", operating_system := "unspecified"
         download_path := "c.jar", download_url := "https://c" }]
    main_class := "Main" }

/-- A network on which every GET answers 200 with an empty index document. -/
def sampleOkNet : String → NetResult :=
  fun _ => NetResult.resp 200 (Doc.index []) false

/-- C3 witness: on a Linux host the sample run produces a descriptor and the
theorem applies to it. -/
theorem classpath_filtered_ordered_primary_last_witness :
    (download_minecraft_structure sampleOkNet "Linux" "root" "1.20"
        sampleMixedVd []).descriptor =
      some (descriptorOf "1.20" "Linux" sampleMixedVd) ∧
    ((descriptorOf "1.20" "Linux" sampleMixedVd).classpath_relative =
        (sampleMixedVd.libraries.filter (fun l =>
            isAnyConstraint l.operating_system ||
              constraintMatchesHost "Linux" l.operating_system)).map
          (fun l => "libraries/" ++ l.download_path) ∧
      (launch_classpath "game" (descriptorOf "1.20" "Linux" sampleMixedVd)).getLast? =
        some "game/client.jar") :=
  ⟨by decide,
   classpath_filtered_ordered_primary_last sampleOkNet "Linux" "root" "1.20" "game"
     sampleMixedVd [] _ (by decide)⟩

/-- C4: when no manifest entry id is an exact, case-sensitive match for the
requested version, the whole program stops with the VersionNotFound error,
the filesystem is untouched, no download request was made, and no descriptor
exists. -/
theorem version_not_found_zero_downloads :
    ∀ (net : String → NetResult) (host : String) (manifest : List ManifestVersion)
      (details : String → Option RawVersionDetails) (out target : String) (fs₀ : FS),
      manifest.find? (fun v => v.id == target) = none →
      mainRun net host manifest details out target fs₀ =
        { error := some LauncherError.versionNotFound, fs := fs₀
          requested := [], descriptor := none } := by
  intro net host manifest details out target fs₀ h
  unfold mainRun get_version_data
  rw [h]

/-- C4 witness: a manifest containing only the id "Beta" does not match the
request "beta", because matching is exact and case-sensitive, so the theorem
applies and the program aborts with VersionNotFound having done nothing. -/
theorem version_not_found_zero_downloads_witness :
    ([{ id := "Beta", type := "release", url := "https://beta" }] :
        List ManifestVersion).find? (fun v => v.id == "beta") = none ∧
    mainRun sampleOkNet "Linux"
        [{ id := "Beta", type := "release", url := "https://beta" }]
        (fun _ => none) "root" "beta" [] =
      { error := some LauncherError.versionNotFound, fs := []
        requested := [], descriptor := none } :=
  ⟨by decide,
   version_not_found_zero_downloads sampleOkNet "Linux"
     [{ id := "Beta", type := "release", url := "https://beta" }]
     (fun _ => none) "root" "beta" [] (by decide)⟩

/-- C5: a fetch whose destination path already exists returns Skipped at once,
uses no network and leaves the filesystem unchanged; consequently a pipeline
run against a fully populated target directory (client.jar, every
host-applicable library, the parsed index file and every aux object already
on disk) uses the network zero times and changes nothing. -/
theorem existing_dest_skipped_rerun_no_requests :
    (∀ (net : String → NetResult) (fs : FS) (url dest : String),
        (List.lookup dest fs).isSome = true →
        download_file net fs url dest = (FetchOutcome.skipped, fs, false)) ∧
    (∀ (net : String → NetResult) (host out v : String) (vd : VersionData) (fs : FS)
        (objects : List (String × String)),
        List.lookup (indexPathOf out vd) fs = some (Doc.index objects) →
        (List.lookup (out ++ "/client.jar") fs).isSome = true →
        (∀ l ∈ vd.libraries.filter (includeLib host),
            (List.lookup (out ++ "/libraries/" ++ l.download_path) fs).isSome = true) →
        (∀ o ∈ objects,
            (List.lookup (out ++ "/assets/objects/" ++ o.2.take 2 ++ "/" ++ o.2)
              fs).isSome = true) →
        (download_minecraft_structure net host out v vd fs).requested = [] ∧
        (download_minecraft_structure net host out v vd fs).fs = fs) := by
  constructor
  · intro net fs url dest h
    obtain ⟨c, hc⟩ := Option.isSome_iff_exists.mp h
    unfold download_file
    rw [hc]
  · intro net host out v vd fs objects hidx hclient hlibs hobjs
    have hstep : indexStep net out vd fs = (some objects, fs, false) := by
      unfold indexStep download_file
      rw [hidx]
      simp [parseIndexDoc, hidx]
    have htasks : ∀ t ∈ ({ url := vd.client_jar_url, dest := out ++ "/client.jar" } ::
        libraryTasks out host vd.libraries) ++ auxObjectTasks out objects,
        (List.lookup t.dest fs).isSome = true := by
      intro t ht
      rcases List.mem_append.mp ht with h1 | h2
      · rcases List.mem_cons.mp h1 with rfl | hlib
        · exact hclient
        · obtain ⟨l, hl, rfl⟩ := List.mem_map.mp hlib
          exact hlibs l hl
      · obtain ⟨o, ho, rfl⟩ := List.mem_map.mp h2
        exact hobjs o ho
    unfold download_minecraft_structure
    rw [hstep]
    simp only
    rw [runTasks_all_present net _ fs htasks]
    simp

/-- A fully populated target directory for the sample version on a Linux
host: client.jar, the two host-applicable libraries, the parsed asset index
and its single object are all on disk. -/
def samplePopulatedFs : FS :=
  [("root/assets/indexes/abc.json", Doc.index [("sound", "abcd")]),
   ("root/client.jar", Doc.chunks []),
   ("root/libraries/a.jar", Doc.chunks []),
   ("root/libraries/c.jar", Doc.chunks []),
   ("root/assets/objects/ab/abcd", Doc.chunks [])]

/-- C5 witness: on the populated sample directory, one existing file is
Skipped without network or filesystem change, and the whole pipeline run
makes zero download requests and leaves the filesystem as it was. -/
theorem existing_dest_skipped_rerun_no_requests_witness :
    (List.lookup "root/client.jar" samplePopulatedFs).isSome = true ∧
    download_file sampleOkNet samplePopulatedFs "https://client" "root/client.jar" =
      (FetchOutcome.skipped, samplePopulatedFs, false) ∧
    List.lookup (indexPathOf "root" sampleMixedVd) samplePopulatedFs =
      some (Doc.index [("sound", "abcd")]) ∧
    ((download_minecraft_structure sampleOkNet "Linux" "root" "1.20" sampleMixedVd
          samplePopulatedFs).requested = [] ∧
      (download_minecraft_structure sampleOkNet "Linux" "root" "1.20" sampleMixedVd
          samplePopulatedFs).fs = samplePopulatedFs) :=
  ⟨by decide,
   existing_dest_skipped_rerun_no_requests.1 sampleOkNet samplePopulatedFs
     "https://client" "root/client.jar" (by decide),
   by decide,
   existing_dest_skipped_rerun_no_requests.2 sampleOkNet "Linux" "root" "1.20"
     sampleMixedVd samplePopulatedFs [("sound", "abcd")]
     (by decide) (by decide) (by decide) (by decide)⟩

/-- C6 counterexample: a mid-stream network failure (the connection drops
while iterating the body, the process keeps running) returns Failed yet
leaves a truncated file at the destination; and a 304 response - a non-2xx
status - passes raise_for_status, so the destination file is created and the
fetch does not return Failed. -/
theorem failed_fetch_can_leave_file_and_304_written :
    (download_file (fun _ => NetResult.resp 200 (Doc.chunks ["ab"]) true) [] "u" "d").1 =
      FetchOutcome.failed ∧
    (List.lookup "d"
        (download_file (fun _ => NetResult.resp 200 (Doc.chunks ["ab"]) true)
          [] "u" "d").2.1).isSome = true ∧
    download_file (fun _ => NetResult.resp 304 (Doc.chunks []) false) [] "u" "d" =
      (FetchOutcome.downloaded, [("d", Doc.chunks [])], true) := by
  decide

/-- C6, amended: for a fetch whose destination does not previously exist, a
connection failure before the response, or a status in [400, 600) (the exact
range raise_for_status raises for), returns Failed and creates no file; a
network failure mid-stream also returns Failed but leaves the already
received prefix at the destination; whenever a Failed fetch did leave a
file, the failure was such a mid-stream one; and every response whose status
is outside [400, 600) - 2xx or not - and whose body streams without error is
written to the destination and returns Downloaded. -/
theorem download_file_failure_semantics :
    ∀ (net : String → NetResult) (fs : FS) (url dest : String),
      List.lookup dest fs = none →
      (net url = NetResult.connErr →
        download_file net fs url dest = (FetchOutcome.failed, fs, true)) ∧
      (∀ s body m, net url = NetResult.resp s body m → 400 ≤ s → s < 600 →
        download_file net fs url dest = (FetchOutcome.failed, fs, true)) ∧
      (∀ s body, net url = NetResult.resp s body true → ¬(400 ≤ s ∧ s < 600) →
        download_file net fs url dest = (FetchOutcome.failed, (dest, body) :: fs, true)) ∧
      ((download_file net fs url dest).1 = FetchOutcome.failed →
        (List.lookup dest (download_file net fs url dest).2.1).isSome = true →
        ∃ s body, net url = NetResult.resp s body true) ∧
      (∀ s body, net url = NetResult.resp s body false → ¬(400 ≤ s ∧ s < 600) →
        download_file net fs url dest =
          (FetchOutcome.downloaded, (dest, body) :: fs, true)) := by
  intro net fs url dest hnone
  refine ⟨?_, ?_, ?_, ?_, ?_⟩
  · intro hc
    unfold download_file
    rw [hnone, hc]
  · intro s body m hr h4 h6
    unfold download_file
    rw [hnone, hr]
    simp [h4, h6]
  · intro s body hr hrange
    unfold download_file
    rw [hnone, hr]
    simp [hrange]
  · intro hfail hfile
    cases hn : net url with
    | connErr =>
      simp [download_file, hnone, hn] at hfile
    | resp s body m =>
      by_cases hrange : 400 ≤ s ∧ s < 600
      · simp [download_file, hnone, hn, hrange.1, hrange.2] at hfile
      · cases m with
        | false => simp [download_file, hnone, hn, hrange] at hfail
        | true => exact ⟨s, body, rfl⟩
  · intro s body hr hrange
    unfold download_file
    rw [hnone, hr]
    simp [hrange]

/-- C6 witness: on an absent destination, a plain connection error returns
Failed leaving the filesystem empty, and a clean 304 response - outside the
raising range - is written and returns Downloaded. -/
theorem download_file_failure_semantics_witness :
    List.lookup "d" ([] : FS) = none ∧
    download_file (fun _ => NetResult.connErr) [] "u" "d" =
      (FetchOutcome.failed, [], true) ∧
    download_file (fun _ => NetResult.resp 304 (Doc.chunks ["b"]) false) [] "u" "d" =
      (FetchOutcome.downloaded, [("d", Doc.chunks ["b"])], true) :=
  ⟨by decide,
   (download_file_failure_semantics (fun _ => NetResult.connErr) [] "u" "d"
     (by decide)).1 rfl,
   ((download_file_failure_semantics (fun _ => NetResult.resp 304 (Doc.chunks ["b"]) false)
     [] "u" "d" (by decide)).2.2.2.2) 304 (Doc.chunks ["b"]) rfl (by decide)⟩

/-- C7: every aux index entry with hash h is fetched from
RESOURCES_BASE_URL/h[0:2]/h into <output>/assets/objects/h[0:2]/h; the task
list is a function of the hashes alone, so two indexes with the same hashes
in the same order but different logical names schedule identical tasks, and
the concrete entry with hash "abc123" lands at assets/objects/ab/abc123. -/
theorem aux_object_addressing_hash_only :
    (∀ (out : String) (objects : List (String × String)),
        auxObjectTasks out objects =
          (objects.map Prod.snd).map (fun h =>
            { url := RESOURCES_BASE_URL ++ "/" ++ h.take 2 ++ "/" ++ h
              dest := out ++ "/assets/objects/" ++ h.take 2 ++ "/" ++ h })) ∧
    (∀ (out : String) (objects₁ objects₂ : List (String × String)),
        objects₁.map Prod.snd = objects₂.map Prod.snd →
        auxObjectTasks out objects₁ = auxObjectTasks out objects₂) ∧
    auxObjectTasks "root" [("anyName", "abc123")] =
      [{ url := "https://resources.download.minecraft.net/ab/abc123"
         dest := "root/assets/objects/ab/abc123" }] := by
  have hmap : ∀ (out : String) (objects : List (String × String)),
      auxObjectTasks out objects =
        (objects.map Prod.snd).map (fun h =>
          { url := RESOURCES_BASE_URL ++ "/" ++ h.take 2 ++ "/" ++ h
            dest := out ++ "/assets/objects/" ++ h.take 2 ++ "/" ++ h }) := by
    intro out objects
    unfold auxObjectTasks
    rw [List.map_map]
    rfl
  refine ⟨hmap, ?_, by decide⟩
  intro out objects₁ objects₂ h
  rw [hmap, hmap, h]

/-- C7 witness: two single-entry indexes with different logical names but the
same hash schedule the same task. -/
theorem aux_object_addressing_hash_only_witness :
    ([("name1", "abcd")] : List (String × String)).map Prod.snd =
      ([("name2", "abcd")] : List (String × String)).map Prod.snd ∧
    auxObjectTasks "root" [("name1", "abcd")] =
      auxObjectTasks "root" [("name2", "abcd")] :=
  ⟨by decide,
   aux_object_addressing_hash_only.2.1 "root" [("name1", "abcd")] [("name2", "abcd")]
     (by decide)⟩

/-- C8: a raw library entry without a downloads.artifact object is dropped by
the extraction loop, so inserting such an entry anywhere in the libraries
array changes neither the parsed library list nor the classpath nor the
library download task set derived from it. -/
theorem artifactless_library_contributes_nothing :
    ∀ (pre post : List RawLibrary) (raw : RawLibrary) (host out : String),
      raw.artifact = none →
      parseLibraries (pre ++ raw :: post) = parseLibraries (pre ++ post) ∧
      classpathOf host (parseLibraries (pre ++ raw :: post)) =
        classpathOf host (parseLibraries (pre ++ post)) ∧
      libraryTasks out host (parseLibraries (pre ++ raw :: post)) =
        libraryTasks out host (parseLibraries (pre ++ post)) := by
  intro pre post raw host out h
  have hnone : parseLibrary raw = none := by
    unfold parseLibrary
    rw [h]
  have hmain : parseLibraries (pre ++ raw :: post) = parseLibraries (pre ++ post) := by
    unfold parseLibraries
    rw [List.filterMap_append, List.filterMap_append, List.filterMap_cons, hnone]
  exact ⟨hmain, by rw [hmain], by rw [hmain]⟩

/-- C8 witness: a single artifactless entry parses to the empty library list,
contributing nothing anywhere. -/
theorem artifactless_library_contributes_nothing_witness :
    (({ name := "org.lwjgl", rules := [], artifact := none } : RawLibrary).artifact =
      none) ∧
    parseLibraries ([] ++ { name := "org.lwjgl", rules := [], artifact := none } :: []) =
      parseLibraries ([] ++ []) :=
  ⟨rfl,
   (artifactless_library_contributes_nothing [] []
     { name := "org.lwjgl", rules := [], artifact := none } "Linux" "root" rfl).1⟩

/-- C9: get_version_data demands downloads.server.url - a detail document
that is complete except for that key is rejected with the corresponding
KeyError - even though the rest of the pipeline never reads the server jar
url: overwriting it changes nothing about the run, its downloads, or the
descriptor. -/
theorem server_url_required_but_unused :
    (∀ (manifest : List ManifestVersion) (details : String → Option RawVersionDetails)
        (target : String) (mv : ManifestVersion) (raw : RawVersionDetails)
        (ai : RawAssetIndex) (dls : RawDownloads),
        manifest.find? (fun v => v.id == target) = some mv →
        details mv.url = some raw →
        raw.id.isSome = true →
        raw.assetIndex = some ai →
        ai.url.isSome = true →
        ai.id.isSome = true →
        raw.downloads = some dls →
        dls.client.isSome = true →
        dls.server = none →
        get_version_data manifest details target =
          Except.error (LauncherError.missingField "downloads.server.url")) ∧
    (∀ (net : String → NetResult) (host out v s : String) (vd : VersionData) (fs₀ : FS),
        download_minecraft_structure net host out v
            { vd with server_jar_url := s } fs₀ =
          download_minecraft_structure net host out v vd fs₀) := by
  constructor
  · intro manifest details target mv raw ai dls hfind hdet hid hai haiu haii hdls hcl hsrv
    obtain ⟨vid, hvid⟩ := Option.isSome_iff_exists.mp hid
    obtain ⟨aiu, haiu'⟩ := Option.isSome_iff_exists.mp haiu
    obtain ⟨aii, haii'⟩ := Option.isSome_iff_exists.mp haii
    obtain ⟨cl, hcl'⟩ := Option.isSome_iff_exists.mp hcl
    simp [get_version_data, hfind, hdet, hvid, hai, haiu', haii', hdls, hcl', hsrv]
  · intro net host out v s vd fs₀
    cases vd
    rfl

/-- C9 witness: a concrete detail document missing only downloads.server.url
is rejected with exactly that error, and rewriting the server jar url of the
sample version does not change the sample run at all. -/
theorem server_url_required_but_unused_witness :
    (([{ id := "1.20", type := "release", url := "https://detail" }] :
        List ManifestVersion).find? (fun v => v.id == "1.20") =
      some { id := "1.20", type := "release", url := "https://detail" }) ∧
    get_version_data [{ id := "1.20", type := "release", url := "https://detail" }]
        (fun _ => some
          { id := some "1.20"
            assetIndex := some { id := some "abc", url := some "https://ai" }
            downloads := some { client := some "https://client", server := none }
            mainClass := some "Main"
            libraries := [] })
        "1.20" =
      Except.error (LauncherError.missingField "downloads.server.url") ∧
    download_minecraft_structure sampleOkNet "Linux" "root" "1.20"
        { sampleMixedVd with server_jar_url := "https://elsewhere" } [] =
      download_minecraft_structure sampleOkNet "Linux" "root" "1.20" sampleMixedVd [] :=
  ⟨by decide,
   server_url_required_but_unused.1
     [{ id := "1.20", type := "release", url := "https://detail" }]
     (fun _ => some
       { id := some "1.20"
         assetIndex := some { id := some "abc", url := some "https://ai" }
         downloads := some { client := some "https://client", server := none }
         mainClass := some "Main"
         libraries := [] })
     "1.20"
     { id := "1.20", type := "release", url := "https://detail" }
     { id := some "1.20"
       assetIndex := some { id := some "abc", url := some "https://ai" }
       downloads := some { client := some "https://client", server := none }
       mainClass := some "Main"
       libraries := [] }
     { id := some "abc", url := some "https://ai" }
     { client := some "https://client", server := none }
     (by decide) rfl (by decide) rfl (by decide) (by decide) rfl (by decide) rfl,
   server_url_required_but_unused.2 sampleOkNet "Linux" "root" "1.20" "https://elsewhere"
     sampleMixedVd []⟩

/-- C10: a library whose derived constraint is none of the three recognized
OS names - the default "unspecified" or any unknown name - passes the
platform filter on every host, so it appears in the classpath and in the
submitted download task set regardless of the executing platform. -/
theorem unknown_constraint_included_everywhere :
    ∀ (host out : String) (l : Library) (libs : List Library),
      l ∈ libs →
      l.operating_system ≠ "windows" →
      l.operating_system ≠ "linux" →
      l.operating_system ≠ "osx" →
      includeLib host l = true ∧
      ("libraries/" ++ l.download_path) ∈ classpathOf host libs ∧
      ({ url := l.download_url, dest := out ++ "/libraries/" ++ l.download_path } :
          FetchTask) ∈ libraryTasks out host libs := by
  intro host out l libs hmem hw hl ho
  have hinc : includeLib host l = true := by
    unfold includeLib
    simp [hw, hl, ho]
  have hfilter : l ∈ libs.filter (includeLib host) :=
    List.mem_filter.mpr ⟨hmem, hinc⟩
  refine ⟨hinc, ?_, ?_⟩
  · exact List.mem_map.mpr ⟨l, hfilter, rfl⟩
  · exact List.mem_map.mpr ⟨l, hfilter, rfl⟩

/-- C10 witness: a library carrying the made-up constraint "solaris" is kept
in both the classpath and the task set on a Windows host. -/
theorem unknown_constraint_included_everywhere_witness :
    (({ library_name := "libX", operating_system := "solaris"
        download_path := "x.jar", download_url := "https://x" } : Library) ∈
      [({ library_name := "libX", operating_system := "solaris"
          download_path := "x.jar", download_url := "https://x" } : Library)]) ∧
    (includeLib "Windows"
        { library_name := "libX", operating_system := "solaris"
          download_path := "x.jar", download_url := "https://x" } = true ∧
      ("libraries/" ++ "x.jar") ∈ classpathOf "Windows"
        [{ library_name := "libX", operating_system := "solaris"
           download_path := "x.jar", download_url := "https://x" }] ∧
      ({ url := "https://x", dest := "root" ++ "/libraries/" ++ "x.jar" } : FetchTask) ∈
        libraryTasks "root" "Windows"
          [{ library_name := "libX", operating_system := "solaris"
             download_path := "x.jar", download_url := "https://x" }]) :=
  ⟨by decide,
   unknown_constraint_included_everywhere "Windows" "root"
     { library_name := "libX", operating_system := "solaris"
       download_path := "x.jar", download_url := "https://x" }
     [{ library_name := "libX", operating_system := "solaris"
        download_path := "x.jar", download_url := "https://x" }]
     (by decide) (by decide) (by decide) (by decide)⟩
